import Mathlib

/-!
Verification of the E2E test runner of microsoft/mdatp-xplat
(tests/e2e/runner.py, health_checker.py, distro_parser.py,
results_formatter.py) against its natural-language specification.

The Python sources are shallowly embedded below.  External effects
(subprocess calls into Vagrant / ssh, the wall clock, exceptions raised
by the body of `run_test`) are supplied by an explicit environment
record `RunEnv`; pure data and control flow are translated directly.
Observable side effects of one `run_test` call (number of health probes,
service restarts, offboard / uninstall / destroy attempts) are returned
in a `RunStats` record alongside the `TestResult`, mirroring the call
sites in the source.
-/

namespace E2E

/-! ### String helpers

Structurally recursive equivalents of the Python string operations used
by the sources (`str.replace` with a single-character pattern,
`str.split(sep, 1)`, `in`, tuple/string `<` comparison).  They are
defined on the character list so that concrete instances reduce inside
the kernel. -/

/-- Lexicographic comparison of character lists by code point, the order
Python uses for `str < str`. -/
def chLt : List Char → List Char → Bool
  | [], [] => false
  | [], _ :: _ => true
  | _ :: _, [] => false
  | a :: as, b :: bs => if a < b then true else if b < a then false else chLt as bs

/-- Python `a < b` on strings. -/
def strLt (a b : String) : Bool := chLt a.data b.data

/-- Python `s.replace(c, r)` for a one-character pattern `c`. -/
def replaceChar (c r : Char) (s : String) : String :=
  String.mk (s.data.map fun ch => if ch = c then r else ch)

/-- Python `c in s` for a one-character needle. -/
def containsChar (c : Char) (s : String) : Bool :=
  s.data.any fun ch => ch = c

def splitOnCharAux (c : Char) : List Char → List Char → List String
  | [], acc => [String.mk acc.reverse]
  | x :: xs, acc =>
    if x = c then String.mk acc.reverse :: splitOnCharAux c xs []
    else splitOnCharAux c xs (x :: acc)

/-- Python `s.split(c)` for a one-character separator. -/
def splitOnChar (c : Char) (s : String) : List String := splitOnCharAux c s.data []

/-- Python `s.split(":", 1)`: the part before the first colon and the
rest of the string. -/
def splitFirstColon (s : String) : String × String :=
  match splitOnChar ':' s with
  | [] => (s, "")
  | [x] => (x, "")
  | x :: rest => (x, String.intercalate ":" rest)

/-! ### health_checker.py -/

/-- `HealthStatus` dataclass of health_checker.py.  The JSON-valued
fields `licenses` and `raw_output` are carried by no modelled operation
and are omitted. -/
structure HealthStatus where
  daemon_running : Bool
  real_time_protection : Bool
  onboarded : Bool
  definitions_updated : Bool
  engine_version : Option String := none
  definitions_version : Option String := none
  product_expiration : Option String := none
deriving Repr, DecidableEq

/-- `HealthStatus.is_healthy`: daemon running, onboarded and definitions
up to date. -/
def HealthStatus.is_healthy (h : HealthStatus) : Bool :=
  h.daemon_running && h.onboarded && h.definitions_updated

/-- Python `health and health.is_healthy()` where `health` is
`HealthStatus | None`. -/
def healthyOpt : Option HealthStatus → Bool
  | some h => h.is_healthy
  | none => false

/-- Loop body of `HealthChecker.wait_for_health`.  `prober k` is the
outcome of the k-th call (1-based) to `HealthChecker.check_health`;
`remaining` counts the loop iterations still allowed, `probes` the calls
already made and `health` the value of the Python `health` variable.
Returns the final `health` together with the total number of probes. -/
def wait_aux (prober : Nat → Option HealthStatus) :
    Nat → Nat → Option HealthStatus → Option HealthStatus × Nat
  | 0, probes, health => (health, probes)
  | remaining + 1, probes, _ =>
    if healthyOpt (prober (probes + 1)) then (prober (probes + 1), probes + 1)
    else wait_aux prober remaining (probes + 1) (prober (probes + 1))

/-- `HealthChecker.wait_for_health(max_attempts, interval_sec)`.  The
sleeps between attempts have no observable effect in the model; the
probe outcomes are supplied by `prober`. -/
def wait_for_health (prober : Nat → Option HealthStatus) (max_attempts : Nat) :
    Option HealthStatus × Nat :=
  wait_aux prober max_attempts 0 none

/-! ### distro_parser.py -/

/-- One row of the test matrix produced by
`DistroParser.get_test_matrix`. -/
structure DistroEntry where
  distro : String
  version : String
  scaled_version : String
  family : String
  vagrant_box : String
deriving Repr, DecidableEq

/-- `DISTRO_FAMILIES` table of distro_parser.py. -/
def DISTRO_FAMILIES : List (String × String) :=
  [("ubuntu", "debian"),
   ("debian", "debian"),
   ("rhel", "fedora"),
   ("centos", "fedora"),
   ("rocky", "fedora"),
   ("almalinux", "fedora"),
   ("ol", "fedora"),
   ("fedora", "fedora"),
   ("amzn", "fedora"),
   ("mariner", "mariner"),
   ("azurelinux", "azurelinux"),
   ("sles", "sles"),
   ("sle-hpc", "sles"),
   ("sles_sap", "sles"),
   ("opensuse-leap", "sles"),
   ("opensuse-tumbleweed", "sles")]

/-- Python `DISTRO_FAMILIES.get(distro, distro)`. -/
def familyOf (distro : String) : String :=
  (DISTRO_FAMILIES.lookup distro).getD distro

/-- `SUPPORTED_DISTROS` table of distro_parser.py: distro name mapped to
its (version, scaled_version, vagrant_box) rows, in source order. -/
def SUPPORTED_DISTROS : List (String × List (String × String × String)) :=
  [("ubuntu",
    [("18.04", "18.04", "generic/ubuntu1804"),
     ("20.04", "20.04", "generic/ubuntu2004"),
     ("22.04", "22.04", "generic/ubuntu2204"),
     ("24.04", "24.04", "cloud-image/ubuntu-24.04"),
     ("25.04", "25.04", "alvistack/ubuntu-25.04"),
     ("25.10", "25.10", "alvistack/ubuntu-25.10")]),
   ("debian",
    [("12", "12", "local/debian12"),
     ("11", "11", "local/debian11"),
     ("10", "10", "local/debian10")]),
   ("centos",
    [("9", "9", "generic/centos9s")]),
   ("rocky",
    [("8", "8", "generic/rocky8"),
     ("9", "9", "generic/rocky9")]),
   ("almalinux",
    [("8", "8", "generic/alma8"),
     ("9", "9", "generic/alma9")]),
   ("fedora",
    [("39", "8", "generic/fedora39"),
     ("40", "8", "local/fedora40"),
     ("41", "8", "local/fedora41"),
     ("42", "8", "alvistack/fedora-42"),
     ("43", "8", "local/fedora43")]),
   ("ol",
    [("8", "8", "generic/oracle8"),
     ("9", "9", "generic/oracle9")]),
   ("amzn",
    [("2", "2", "crystax/amazon2"),
     ("2023", "2023", "crystax/amazon2023")])]

/-- Python `sorted` key order of `get_test_matrix`: ascending on the
pair (distro, version). -/
def entryLe (a b : DistroEntry) : Bool :=
  strLt a.distro b.distro || (a.distro == b.distro && !(strLt b.version a.version))

def insertEntry (e : DistroEntry) : List DistroEntry → List DistroEntry
  | [] => [e]
  | x :: xs => if entryLe e x then e :: x :: xs else x :: insertEntry e xs

/-- Insertion sort implementing Python `sorted(matrix, key distro, version)`.
All keys in the curated matrix are distinct, so any sort agrees with
Python's stable sort here. -/
def sortEntries : List DistroEntry → List DistroEntry
  | [] => []
  | x :: xs => insertEntry x (sortEntries xs)

/-- `DistroParser.get_test_matrix(exclude_paid)`: flatten the curated
table (skipping `rhel` when `exclude_paid`), attach the family, and sort
by (distro, version). -/
def get_test_matrix (exclude_paid : Bool) : List DistroEntry :=
  sortEntries
    ((SUPPORTED_DISTROS.filter fun p => !(exclude_paid && p.1 == "rhel")).flatMap fun p =>
      p.2.map fun t =>
        { distro := p.1, version := t.1, scaled_version := t.2.1,
          family := familyOf p.1, vagrant_box := t.2.2 })

/-! ### results_formatter.py -/

/-- `TestResult` dataclass of results_formatter.py.  Durations are
Python floats, modelled as rationals; the logs dict is a key/value
list. -/
structure TestResult where
  distro : String
  version : String
  install_passed : Bool
  onboarding_passed : Bool
  uninstall_passed : Bool
  duration_seconds : Rat
  failure_reason : Option String := none
  timestamp : Option String := none
  logs : Option (List (String × String)) := none
deriving Repr, DecidableEq

/-- Python truthiness of `result.failure_reason`: `None` and the empty
string are falsy. -/
def reasonFalsy : Option String → Bool
  | none => true
  | some s => s.isEmpty

/-- Python truthiness of `result.logs`: `None` and the empty dict are
falsy. -/
def logsTruthy : Option (List (String × String)) → Bool
  | none => false
  | some l => !l.isEmpty

/-- Python f-string rendering of an optional string (`None` prints as
"None"). -/
def optStr : Option String → String
  | none => "None"
  | some s => s

/-- Python `result.failure_reason or 'Unknown'`. -/
def orUnknown : Option String → String
  | none => "Unknown"
  | some s => if s.isEmpty then "Unknown" else s

/-- Python `f"{q:.1f}"` for the nonnegative durations the runner
produces: one decimal digit, rounding to nearest. -/
def fmt1 (q : Rat) : String :=
  let n : Int := round (q * 10)
  (if n < 0 then "-" else "") ++ toString (n.natAbs / 10) ++ "." ++ toString (n.natAbs % 10)

def insertLogItem (e : String × String) :
    List (String × String) → List (String × String)
  | [] => [e]
  | x :: xs => if strLt x.1 e.1 then x :: insertLogItem e xs else e :: x :: xs

/-- Python `sorted(result.logs.items())` (keys are distinct in the
runner, so sorting on the key matches Python's pair order). -/
def sortLogItems : List (String × String) → List (String × String)
  | [] => []
  | x :: xs => insertLogItem x (sortLogItems xs)

/-- The metadata block of `ResultsFormatter.save_failure_logs`
(`log_lines` before the captured-log section). -/
def failureHeaderLines (result : TestResult) : List String :=
  ["Test Failure Log",
   "================",
   "",
   "Distro: " ++ result.distro,
   "Version: " ++ result.version,
   "Timestamp: " ++ optStr result.timestamp,
   "Duration: " ++ fmt1 result.duration_seconds ++ "s",
   "",
   "Failure Reason:",
   "---------------",
   orUnknown result.failure_reason,
   ""]

/-- The captured-log section of `ResultsFormatter.save_failure_logs`. -/
def capturedLogLines (result : TestResult) : List String :=
  if logsTruthy result.logs then
    ["Captured Logs:",
     "==============",
     ""] ++
    ((sortLogItems (result.logs.getD [])).flatMap fun p =>
      ["### " ++ p.1, "```", p.2, "```", ""])
  else []

/-- `ResultsFormatter.save_failure_logs(result)`.  `now_stamp` is
`datetime.now().strftime("%Y%m%d_%H%M%S")`.  Returns the path written
(relative to the output directory) and the file content, or `none` when
nothing is written. -/
def save_failure_logs (now_stamp : String) (result : TestResult) :
    Option (String × String) :=
  if reasonFalsy result.failure_reason && result.install_passed then none
  else
    let safe_distro := replaceChar ' ' '_' (replaceChar '.' '_' result.distro)
    let safe_version := replaceChar '.' '_' result.version
    let log_filename := safe_distro ++ "-" ++ safe_version ++ "-" ++ now_stamp ++ ".log"
    some ("failures/" ++ log_filename,
      String.intercalate "\n" (failureHeaderLines result ++ capturedLogLines result))

/-- JSON values, the shape `json.dumps` receives in
`ResultsFormatter.save_json_results` (numbers are rationals). -/
inductive Json where
  | null : Json
  | bool (b : Bool) : Json
  | num (q : Rat) : Json
  | str (s : String) : Json
  | arr (elems : List Json) : Json
  | obj (fields : List (String × Json)) : Json

/-- Field lookup on a re-parsed JSON object. -/
def Json.getField : Json → String → Option Json
  | .obj fields, key => fields.lookup key
  | _, _ => none

def jsonOfOptStr : Option String → Json
  | none => .null
  | some s => .str s

/-- `ResultsFormatter.save_json_results`: the JSON document written
(the `results_data` dict), with `generated` supplied by the clock. -/
def save_json_results (generated : String) (results : List TestResult) : Json :=
  .obj
    [("generated", .str generated),
     ("summary", .obj
       [("total", .num (results.length : Rat)),
        ("passed", .num ((results.filter fun r => r.install_passed).length : Rat)),
        ("failed", .num ((results.filter fun r => !r.install_passed).length : Rat))]),
     ("results", .arr (results.map fun r => .obj
       [("distro", .str r.distro),
        ("version", .str r.version),
        ("install_passed", .bool r.install_passed),
        ("onboarding_passed", .bool r.onboarding_passed),
        ("uninstall_passed", .bool r.uninstall_passed),
        ("duration_seconds", .num r.duration_seconds),
        ("failure_reason", jsonOfOptStr r.failure_reason),
        ("timestamp", jsonOfOptStr r.timestamp),
        ("has_logs", .bool (logsTruthy r.logs))]))]

/-- Re-parsing the written JSON: extract (total, passed, failed) from
the `summary` object. -/
def parseSummary (j : Json) : Option (Rat × Rat × Rat) :=
  match j.getField "summary" with
  | some s =>
    match s.getField "total", s.getField "passed", s.getField "failed" with
    | some (.num t), some (.num p), some (.num f) => some (t, p, f)
    | _, _, _ => none
  | none => none

/-! ### runner.py -/

/-- `VM_TIMEOUT_SECONDS = 15 * 60` of runner.py. -/
def VM_TIMEOUT_SECONDS : Rat := 15 * 60

/-- `check_timeout` closure inside `TestRunner.run_test`: true when the
elapsed wall-clock time strictly exceeds the budget. -/
def check_timeout (elapsed : Rat) : Bool :=
  decide (VM_TIMEOUT_SECONDS < elapsed)

/-- `TestConfig` dataclass of runner.py. -/
structure TestConfig where
  distro : String
  version : String
  scaled_version : String
  family : String
  vagrant_box : String
  cpus : Nat
  memory_mb : Nat
  disk_size_gb : Nat
deriving Repr, DecidableEq

/-- Environment of one `TestRunner.run_test` call: the outcomes of its
external interactions, supplied as data.

* `exn`: `some msg` when the body raises an exception rendered as `msg`
  (caught by the `except Exception` handler); `none` for an
  exception-free run.
* `setup_ok`: result of `vagrant.setup_vm`.
* `elapsed_after_setup`: `time.time() - start_time` at the timeout
  checkpoint directly after VM startup.
* `elapsed_before_attempt k`: the same quantity at the checkpoint
  before health-check attempt `k` (1-based).
* `health_at k`: parsed status returned by `vagrant.check_health()` on
  attempt `k` (`none` when the probe fails or its JSON is malformed).
* `offboard_ok` / `uninstall_ok`: results of `vagrant.offboard` and
  `vagrant.uninstall` when called.
* `collected_logs`: what `vagrant.get_logs` returns for the failure
  log files.
* `elapsed_at_return`: `time.time() - start_time` at the return
  statement that fires.
* `now_iso`: `datetime.now().isoformat()`. -/
structure RunEnv where
  exn : Option String
  setup_ok : Bool
  elapsed_after_setup : Rat
  elapsed_before_attempt : Nat → Rat
  health_at : Nat → Option HealthStatus
  offboard_ok : Bool
  uninstall_ok : Bool
  collected_logs : List (String × String)
  elapsed_at_return : Rat
  now_iso : String

/-- Counts of the observable external actions one `run_test` call
performs. -/
structure RunStats where
  probes : Nat := 0
  restarts : Nat := 0
  offboard_attempts : Nat := 0
  uninstall_attempts : Nat := 0
  destroys : Nat := 0
deriving Repr, DecidableEq

/-- Outcome of the health-check loop of `run_test`: either an early
timeout return, or the loop finished with the final `health` value. -/
inductive LoopOutcome where
  | timedOut (probes restarts : Nat) : LoopOutcome
  | done (health : Option HealthStatus) (probes restarts : Nat) : LoopOutcome
deriving Repr, DecidableEq

/-- The `for attempt in range(1, max_attempts + 1)` loop of `run_test`:
timeout check, probe, break when healthy, restart + sleep between
failed attempts.  `remaining` is the number of iterations still to run
(`max_attempts - attempt + 1`), so `remaining = 0` after the loop and
the guard `attempt < max_attempts` is `remaining ≠ 1` inside it. -/
def healthLoop (env : RunEnv) :
    Nat → Nat → Nat → Nat → Option HealthStatus → LoopOutcome
  | 0, _, probes, restarts, health => .done health probes restarts
  | remaining + 1, attempt, probes, restarts, _ =>
    if check_timeout (env.elapsed_before_attempt attempt) then .timedOut probes restarts
    else if healthyOpt (env.health_at attempt) then
      .done (env.health_at attempt) (probes + 1) restarts
    else if remaining == 0 then
      .done (env.health_at attempt) (probes + 1) restarts
    else
      healthLoop env remaining (attempt + 1) (probes + 1) (restarts + 1) (env.health_at attempt)

/-- `TestRunner.run_test(test_config)`.  The `secrets` lookup of
`OFFBOARDING_FILE` only chooses the file name passed to
`vagrant.offboard` and has no further observable effect, so it is not a
parameter.  `preserve_on_failure` is the config flag read in the
`finally` block. -/
def run_test (test_config : TestConfig) (preserve_on_failure : Bool)
    (env : RunEnv) : TestResult × RunStats :=
  let destroys := if preserve_on_failure then 0 else 1
  match env.exn with
  | some msg =>
    ({ distro := test_config.distro, version := test_config.version,
       install_passed := false, onboarding_passed := false, uninstall_passed := false,
       duration_seconds := env.elapsed_at_return,
       failure_reason := some ("Exception: " ++ msg),
       timestamp := some env.now_iso, logs := none },
     { destroys := destroys })
  | none =>
    if !env.setup_ok then
      ({ distro := test_config.distro, version := test_config.version,
         install_passed := false, onboarding_passed := false, uninstall_passed := false,
         duration_seconds := env.elapsed_at_return,
         failure_reason := some "Failed to start VM",
         timestamp := some env.now_iso, logs := none },
       { destroys := destroys })
    else if check_timeout env.elapsed_after_setup then
      ({ distro := test_config.distro, version := test_config.version,
         install_passed := false, onboarding_passed := false, uninstall_passed := false,
         duration_seconds := env.elapsed_at_return,
         failure_reason := some ("Timeout" ++ ": VM setup took longer than 15 minutes"),
         timestamp := some env.now_iso, logs := none },
       { destroys := destroys })
    else
      match healthLoop env 3 1 0 0 none with
      | .timedOut probes restarts =>
        ({ distro := test_config.distro, version := test_config.version,
           install_passed := false, onboarding_passed := false, uninstall_passed := false,
           duration_seconds := env.elapsed_at_return,
           failure_reason := some ("Timeout" ++ ": health check exceeded 15 min limit"),
           timestamp := some env.now_iso, logs := none },
         { probes := probes, restarts := restarts, destroys := destroys })
      | .done health probes restarts =>
        let install_passed := health.isSome
        let onboarding_passed := match health with
          | some h => h.onboarded
          | none => false
        let offboard_passed := install_passed && env.offboard_ok
        let uninstall_passed := offboard_passed && env.uninstall_ok
        let offboard_attempts := if install_passed then 1 else 0
        let uninstall_attempts := if offboard_passed then 1 else 0
        let logs := if !install_passed then env.collected_logs else []
        let all_passed :=
          install_passed && onboarding_passed && offboard_passed && uninstall_passed
        ({ distro := test_config.distro, version := test_config.version,
           install_passed := install_passed, onboarding_passed := onboarding_passed,
           uninstall_passed := uninstall_passed,
           duration_seconds := env.elapsed_at_return,
           failure_reason := if all_passed then none else some "Test failed",
           timestamp := some env.now_iso,
           logs := if logs.isEmpty then none else some logs },
         { probes := probes, restarts := restarts,
           offboard_attempts := offboard_attempts,
           uninstall_attempts := uninstall_attempts, destroys := destroys })

/-- The five family names accepted by the CLI filter of
`TestRunner.filter_distros`. -/
def familyFilterNames : List String :=
  ["debian", "fedora", "sles", "mariner", "azurelinux"]

/-- `TestRunner.filter_distros(distros, distro_filter)`.  `cfgInclude`
and `cfgExclude` are the `distros.include` / `distros.exclude` lists of
the loaded config; a missing or empty list is falsy in Python and is
not applied, so both are passed as plain lists with `[]` for absent. -/
def filter_distros (cfgInclude cfgExclude : List String)
    (distros : List DistroEntry) (distro_filter : Option String) :
    List DistroEntry :=
  let f1 := if cfgInclude.isEmpty then distros
    else distros.filter fun d => cfgInclude.contains d.distro
  let f2 := if cfgExclude.isEmpty then f1
    else f1.filter fun d => !(cfgExclude.contains d.distro)
  match distro_filter with
  | none => f2
  | some s =>
    if s.isEmpty then f2
    else if containsChar ':' s then
      f2.filter fun d =>
        d.distro == (splitFirstColon s).1 && d.version == (splitFirstColon s).2
    else if familyFilterNames.contains s then
      f2.filter fun d => d.family == s
    else
      f2.filter fun d => d.distro == s

/-- Exit-code policy at the end of `main` in runner.py: `sys.exit(1)`
when any result failed its install, else `sys.exit(0)`. -/
def exit_code (results : List TestResult) : Nat :=
  if results.any fun r => !r.install_passed then 1 else 0

/-! ### Claims -/

/-- C3: the process exit code is zero exactly when every collected
result has `install_passed = true`, and non-zero exactly when some
result has `install_passed = false`; onboarding or uninstall failures
alone never change it. -/
theorem c3_exit_code_policy (results : List TestResult) :
    (exit_code results = 0 ↔ ∀ r ∈ results, r.install_passed = true)
    ∧ (exit_code results ≠ 0 ↔ ∃ r ∈ results, r.install_passed = false) := by
  unfold exit_code
  by_cases h : (results.any fun r => !r.install_passed) = true
  · rw [if_pos h]
    simp only [List.any_eq_true, Bool.not_eq_true'] at h
    obtain ⟨r, hr, hf⟩ := h
    refine ⟨⟨fun h0 => absurd h0 one_ne_zero, fun hall => ?_⟩,
            ⟨fun _ => ⟨r, hr, hf⟩, fun _ => one_ne_zero⟩⟩
    rw [hall r hr] at hf
    exact absurd hf (by decide)
  · rw [if_neg h]
    simp only [List.any_eq_true, Bool.not_eq_true', not_exists, not_and] at h
    refine ⟨⟨fun _ r hr => ?_, fun _ => rfl⟩,
            ⟨fun h0 => absurd rfl h0, fun ⟨r, hr, hf⟩ => absurd hf (h r hr)⟩⟩
    have := h r hr
    cases hb : r.install_passed
    · exact absurd hb this
    · rfl

/-- C8: re-parsing the JSON document written by `save_json_results`
yields a summary whose `total` is the number of in-memory results,
whose `passed` count is the number of results with
`install_passed = true`, and whose `failed` count is the number with
`install_passed = false`. -/
theorem c8_json_summary_roundtrip (generated : String) (results : List TestResult) :
    parseSummary (save_json_results generated results)
      = some ((results.length : Rat),
              ((results.filter fun r => r.install_passed).length : Rat),
              ((results.filter fun r => !r.install_passed).length : Rat)) := rfl

lemma wait_aux_probes_le (prober : Nat → Option HealthStatus) :
    ∀ fuel probes last, (wait_aux prober fuel probes last).2 ≤ probes + fuel := by
  intro fuel
  induction fuel with
  | zero => intro probes last; simp [wait_aux]
  | succ n ih =>
    intro probes last
    simp only [wait_aux]
    split
    · simp only []
      omega
    · calc (wait_aux prober n (probes + 1) (prober (probes + 1))).2
          ≤ probes + 1 + n := ih (probes + 1) _
        _ = probes + (n + 1) := by omega

lemma wait_aux_early (prober : Nat → Option HealthStatus) :
    ∀ fuel probes last k, k < fuel →
      (∀ j, j < k → healthyOpt (prober (probes + j + 1)) = false) →
      healthyOpt (prober (probes + k + 1)) = true →
      wait_aux prober fuel probes last = (prober (probes + k + 1), probes + k + 1) := by
  intro fuel
  induction fuel with
  | zero => intro probes last k hk; omega
  | succ n ih =>
    intro probes last k hk hunh hok
    cases k with
    | zero =>
      simp only [wait_aux]
      rw [if_pos]
      exact hok
    | succ m =>
      have h0 : healthyOpt (prober (probes + 1)) = false := by
        have := hunh 0 (by omega)
        simpa using this
      simp only [wait_aux, h0, if_false, Bool.false_eq_true]
      have hrec := ih (probes + 1) (prober (probes + 1)) m (by omega)
        (fun j hj => by
          have := hunh (j + 1) (by omega)
          have harith : probes + (j + 1) + 1 = probes + 1 + j + 1 := by omega
          rwa [harith] at this)
        (by
          have harith : probes + (m + 1) + 1 = probes + 1 + m + 1 := by omega
          rwa [harith] at hok)
      have harith : probes + 1 + m + 1 = probes + (m + 1) + 1 := by omega
      rwa [harith] at hrec

lemma wait_aux_exhaust (prober : Nat → Option HealthStatus) :
    ∀ fuel probes last, 0 < fuel →
      (∀ j, j < fuel → healthyOpt (prober (probes + j + 1)) = false) →
      wait_aux prober fuel probes last = (prober (probes + fuel), probes + fuel) := by
  intro fuel
  induction fuel with
  | zero => intro probes last h; omega
  | succ n ih =>
    intro probes last _ hunh
    have h0 : healthyOpt (prober (probes + 1)) = false := by
      have := hunh 0 (by omega)
      simpa using this
    simp only [wait_aux, h0, if_false, Bool.false_eq_true]
    cases n with
    | zero => simp [wait_aux]
    | succ m =>
      have hrec := ih (probes + 1) (prober (probes + 1)) (by omega)
        (fun j hj => by
          have := hunh (j + 1) (by omega)
          have harith : probes + (j + 1) + 1 = probes + 1 + j + 1 := by omega
          rwa [harith] at this)
      have harith : probes + 1 + (m + 1) = probes + (m + 1 + 1) := by omega
      rwa [harith] at hrec

/-- C5: `wait_for_health` makes at most `max_attempts` probes; it stops
and returns the probed status as soon as a probe is healthy; when every
allowed probe is unhealthy it returns the last observed status instead
of raising; in particular with `max_attempts = 3` and a prober that
always returns a non-`none` unhealthy status it returns that non-`none`
status after exactly 3 probes. -/
theorem c5_wait_for_health (prober : Nat → Option HealthStatus) (max_attempts : Nat) :
    ((wait_for_health prober max_attempts).2 ≤ max_attempts)
    ∧ (∀ k, k < max_attempts →
        (∀ j, j < k → healthyOpt (prober (j + 1)) = false) →
        healthyOpt (prober (k + 1)) = true →
        wait_for_health prober max_attempts = (prober (k + 1), k + 1))
    ∧ ((∀ j, j < max_attempts → healthyOpt (prober (j + 1)) = false) →
        0 < max_attempts →
        wait_for_health prober max_attempts = (prober max_attempts, max_attempts))
    ∧ ((∀ j, j < 3 → ∃ s, prober (j + 1) = some s ∧ s.is_healthy = false) →
        (wait_for_health prober 3).1 = prober 3
        ∧ (prober 3).isSome = true
        ∧ (wait_for_health prober 3).2 = 3) := by
  refine ⟨?_, ?_, ?_, ?_⟩
  · have := wait_aux_probes_le prober max_attempts 0 none
    simpa [wait_for_health] using this
  · intro k hk hunh hok
    have := wait_aux_early prober max_attempts 0 none k hk
      (fun j hj => by simpa using hunh j hj) (by simpa using hok)
    simpa [wait_for_health] using this
  · intro hunh hpos
    have := wait_aux_exhaust prober max_attempts 0 none hpos
      (fun j hj => by simpa using hunh j hj)
    simpa [wait_for_health] using this
  · intro hunh
    have hall : ∀ j, j < 3 → healthyOpt (prober (j + 1)) = false := by
      intro j hj
      obtain ⟨s, hs, hsick⟩ := hunh j hj
      simp [healthyOpt, hs, hsick]
    have := wait_aux_exhaust prober 3 0 none (by omega)
      (fun j hj => by simpa using hall j hj)
    obtain ⟨s, hs, _⟩ := hunh 2 (by omega)
    simp only [wait_for_health]
    rw [show (0 + 3 = 3) from rfl] at this
    rw [this]
    simp [hs]

/-- A status whose daemon is up but is neither onboarded nor has fresh
definitions, hence `is_healthy = false`. -/
def unhealthyStatus : HealthStatus :=
  { daemon_running := true, real_time_protection := false, onboarded := false,
    definitions_updated := false }

/-- A prober that always parses an unhealthy status. -/
def alwaysUnhealthy : Nat → Option HealthStatus := fun _ => some unhealthyStatus

/-- Witness for C5: the always-unhealthy prober at `max_attempts = 3`. -/
theorem c5_wait_for_health_witness :
    (wait_for_health alwaysUnhealthy 3).1 = alwaysUnhealthy 3
    ∧ (alwaysUnhealthy 3).isSome = true
    ∧ (wait_for_health alwaysUnhealthy 3).2 = 3 :=
  (c5_wait_for_health alwaysUnhealthy 3).2.2.2
    (fun _ _ => ⟨unhealthyStatus, rfl, rfl⟩)

/-- The predicate the command-line filter of `filter_distros` selects
by: `distro:version` exact match, else family name, else distro name
(absent or empty filter selects everything). -/
def cliPred : Option String → DistroEntry → Prop
  | none, _ => True
  | some s, d =>
    if s.isEmpty then True
    else if containsChar ':' s then
      d.distro = (splitFirstColon s).1 ∧ d.version = (splitFirstColon s).2
    else if familyFilterNames.contains s then d.family = s
    else d.distro = s

lemma mem_filter_distros (incl excl : List String) (distros : List DistroEntry)
    (f : Option String) (d : DistroEntry) :
    d ∈ filter_distros incl excl distros f ↔
      d ∈ distros ∧ (incl.isEmpty = true ∨ incl.contains d.distro = true)
        ∧ (excl.isEmpty = true ∨ excl.contains d.distro = false)
        ∧ cliPred f d := by
  cases f with
  | none =>
    cases h1 : incl.isEmpty <;> cases h2 : excl.isEmpty <;>
      simp [filter_distros, cliPred, h1, h2, List.mem_filter,
        Bool.not_eq_true', and_assoc] <;> tauto
  | some s =>
    cases hs : s.isEmpty with
    | true =>
      cases h1 : incl.isEmpty <;> cases h2 : excl.isEmpty <;>
        simp [filter_distros, cliPred, h1, h2, hs, List.mem_filter,
          Bool.not_eq_true', and_assoc] <;> tauto
    | false =>
      cases hc : containsChar ':' s with
      | true =>
        cases h1 : incl.isEmpty <;> cases h2 : excl.isEmpty <;>
          simp [filter_distros, cliPred, h1, h2, hs, hc, List.mem_filter,
            Bool.not_eq_true', beq_iff_eq, and_assoc] <;> tauto
      | false =>
        by_cases hf : s ∈ familyFilterNames <;>
          cases h1 : incl.isEmpty <;> cases h2 : excl.isEmpty <;>
            simp [filter_distros, cliPred, h1, h2, hs, hc, hf, List.mem_filter,
              Bool.not_eq_true', beq_iff_eq, and_assoc] <;> tauto

/-- C6: membership in `filter_distros` is the intersection of the
config include list, the config exclude list and the command-line
filter (applied in that order in the source); concretely, a config
include list of ubuntu and debian followed by the CLI filter
`ubuntu:22.04` over the full curated matrix leaves exactly the single
ubuntu 22.04 entry. -/
theorem c6_filter_intersection (incl excl : List String)
    (distros : List DistroEntry) (f : Option String) (d : DistroEntry) :
    (d ∈ filter_distros incl excl distros f ↔
      d ∈ distros ∧ (incl.isEmpty = true ∨ incl.contains d.distro = true)
        ∧ (excl.isEmpty = true ∨ excl.contains d.distro = false)
        ∧ cliPred f d)
    ∧ filter_distros ["ubuntu", "debian"] [] (get_test_matrix true) (some "ubuntu:22.04")
        = [{ distro := "ubuntu", version := "22.04", scaled_version := "22.04",
             family := "debian", vagrant_box := "generic/ubuntu2204" }] :=
  ⟨mem_filter_distros incl excl distros f d, by decide⟩

/-- C10: a bare CLI filter equal to one of the five family names
selects by `family`, not by distro name; with no config lists the
filter "debian" therefore also selects every ubuntu entry of the
curated matrix. -/
theorem c10_family_filter :
    (∀ (distros : List DistroEntry) (fam : String),
        fam ∈ familyFilterNames →
        filter_distros [] [] distros (some fam)
          = distros.filter fun d => d.family == fam)
    ∧ (∀ d, d ∈ filter_distros [] [] (get_test_matrix true) (some "debian") ↔
          d ∈ get_test_matrix true ∧ d.family = "debian")
    ∧ ({ distro := "ubuntu", version := "22.04", scaled_version := "22.04",
         family := "debian", vagrant_box := "generic/ubuntu2204" } : DistroEntry)
        ∈ filter_distros [] [] (get_test_matrix true) (some "debian") := by
  refine ⟨?_, ?_, by decide⟩
  · intro distros fam hmem
    simp only [familyFilterNames, List.mem_cons, List.mem_singleton,
      List.not_mem_nil, or_false] at hmem
    rcases hmem with h | h | h | h | h <;> subst h <;> rfl
  · intro d
    have hval : filter_distros [] [] (get_test_matrix true) (some "debian")
        = (get_test_matrix true).filter fun x => x.family == "debian" := rfl
    rw [hval, List.mem_filter]
    simp [beq_iff_eq]

/-- Witness for C10 at concrete inputs. -/
theorem c10_family_filter_witness :
    filter_distros [] [] (get_test_matrix true) (some "fedora")
      = (get_test_matrix true).filter (fun d => d.family == "fedora")
    ∧ ({ distro := "ubuntu", version := "22.04", scaled_version := "22.04",
         family := "debian", vagrant_box := "generic/ubuntu2204" } : DistroEntry)
        ∈ filter_distros [] [] (get_test_matrix true) (some "debian") :=
  ⟨c10_family_filter.1 (get_test_matrix true) "fedora" (by simp [familyFilterNames]),
   c10_family_filter.2.2⟩

/-- A failed ubuntu 22.04 result as `run_test` would produce it. -/
def c7SampleResult : TestResult :=
  { distro := "ubuntu", version := "22.04", install_passed := false,
    onboarding_passed := false, uninstall_passed := false,
    duration_seconds := 89,
    failure_reason := some "Test failed",
    timestamp := some "2026-01-01T00:00:00",
    logs := some [("installer.log", "installer output")] }

/-- C7 counterexample: for the failed ubuntu 22.04 result the file is
named with a hyphen between the distro and version parts and with dots
replaced by underscores — `ubuntu-22_04-{timestamp}.log` — not
`ubuntu_22.04-{timestamp}.log` as the claim states. -/
theorem c7_filename_counterexample :
    (save_failure_logs "20260101_000000" c7SampleResult).map Prod.fst
      = some "failures/ubuntu-22_04-20260101_000000.log"
    ∧ (save_failure_logs "20260101_000000" c7SampleResult).map Prod.fst
      ≠ some ("failures/" ++ "ubuntu" ++ "_" ++ "22.04" ++ "-"
              ++ "20260101_000000" ++ ".log") := by
  constructor
  · decide
  · decide

/-- C7 amended: for every result that failed its install or carries a
non-empty failure reason, `save_failure_logs` writes exactly one file
under `failures/`, named `{distro}-{version}-{timestamp}.log` after
replacing dots (and spaces in the distro) with underscores, whose
content is the metadata block followed by all captured log contents;
for a result with `install_passed = true` and no failure reason it
writes nothing. -/
theorem c7_save_failure_logs (now_stamp : String) (r : TestResult) :
    (r.install_passed = true → r.failure_reason = none →
      save_failure_logs now_stamp r = none)
    ∧ (r.install_passed = false ∨ (∃ s, r.failure_reason = some s ∧ s ≠ "") →
      save_failure_logs now_stamp r
        = some ("failures/"
                  ++ (replaceChar ' ' '_' (replaceChar '.' '_' r.distro)
                      ++ "-" ++ replaceChar '.' '_' r.version
                      ++ "-" ++ now_stamp ++ ".log"),
                String.intercalate "\n"
                  (failureHeaderLines r ++ capturedLogLines r))) := by
  constructor
  · intro hi hr
    simp [save_failure_logs, reasonFalsy, hi, hr]
  · intro h
    have hcond : (reasonFalsy r.failure_reason && r.install_passed) = false := by
      rcases h with h | ⟨s, hs, hne⟩
      · simp [h]
      · have hre : reasonFalsy r.failure_reason = false := by
          rw [hs]
          simp only [reasonFalsy]
          cases he : s.isEmpty
          · rfl
          · exact absurd ((String.isEmpty_iff s).mp he) hne
        simp [hre]
    simp [save_failure_logs, hcond]

/-- A fully passing result, which produces no failure log. -/
def c7PassedResult : TestResult :=
  { distro := "debian", version := "12", install_passed := true,
    onboarding_passed := true, uninstall_passed := true,
    duration_seconds := 120, failure_reason := none,
    timestamp := some "2026-01-01T00:00:00", logs := none }

/-- Witness for the amended C7: the passing result writes nothing; the
failed ubuntu 22.04 result writes the hyphen-separated file. -/
theorem c7_save_failure_logs_witness :
    save_failure_logs "20260101_000000" c7PassedResult = none
    ∧ save_failure_logs "20260101_000000" c7SampleResult
        = some ("failures/"
                  ++ (replaceChar ' ' '_' (replaceChar '.' '_' c7SampleResult.distro)
                      ++ "-" ++ replaceChar '.' '_' c7SampleResult.version
                      ++ "-" ++ "20260101_000000" ++ ".log"),
                String.intercalate "\n"
                  (failureHeaderLines c7SampleResult
                    ++ capturedLogLines c7SampleResult)) :=
  ⟨(c7_save_failure_logs "20260101_000000" c7PassedResult).1 rfl rfl,
   (c7_save_failure_logs "20260101_000000" c7SampleResult).2 (Or.inl rfl)⟩

lemma check_timeout_eq_true (e : Rat) : check_timeout e = true ↔ 900 < e := by
  unfold check_timeout
  rw [decide_eq_true_eq]
  norm_num [VM_TIMEOUT_SECONDS]

lemma check_timeout_eq_false (e : Rat) : check_timeout e = false ↔ e ≤ 900 := by
  unfold check_timeout
  rw [decide_eq_false_iff_not, not_lt]
  norm_num [VM_TIMEOUT_SECONDS]

/-- C1: whenever the wall-clock budget is found exceeded at the
checkpoint directly after VM setup, or at the checkpoint before a
health-check attempt, `run_test` returns with `install_passed = false`
and a failure reason starting with "Timeout", and never attempts the
offboarding or uninstall steps. -/
theorem c1_timeout_aborts (test_config : TestConfig) (preserve : Bool) (env : RunEnv)
    (hexn : env.exn = none) (hsetup : env.setup_ok = true) :
    (check_timeout env.elapsed_after_setup = true →
      (run_test test_config preserve env).1.install_passed = false
      ∧ (run_test test_config preserve env).1.failure_reason
          = some ("Timeout" ++ ": VM setup took longer than 15 minutes")
      ∧ (run_test test_config preserve env).2.offboard_attempts = 0
      ∧ (run_test test_config preserve env).2.uninstall_attempts = 0)
    ∧ (∀ probes restarts,
        check_timeout env.elapsed_after_setup = false →
        healthLoop env 3 1 0 0 none = .timedOut probes restarts →
        (run_test test_config preserve env).1.install_passed = false
        ∧ (run_test test_config preserve env).1.failure_reason
            = some ("Timeout" ++ ": health check exceeded 15 min limit")
        ∧ (run_test test_config preserve env).2.offboard_attempts = 0
        ∧ (run_test test_config preserve env).2.uninstall_attempts = 0) := by
  constructor
  · intro hst
    refine ⟨?_, ?_, ?_, ?_⟩ <;> simp [run_test, hexn, hsetup, hst]
  · intro probes restarts hst hloop
    refine ⟨?_, ?_, ?_, ?_⟩ <;> simp [run_test, hexn, hsetup, hst, hloop]

/-- A sample test configuration (the ubuntu 22.04 row of the curated
matrix with the default per-VM resources). -/
def cfgSample : TestConfig :=
  { distro := "ubuntu", version := "22.04", scaled_version := "22.04",
    family := "debian", vagrant_box := "generic/ubuntu2204",
    cpus := 2, memory_mb := 2048, disk_size_gb := 16 }

/-- An environment whose VM setup finishes only after 901 seconds. -/
def envTimeoutSetup : RunEnv :=
  { exn := none, setup_ok := true, elapsed_after_setup := 901,
    elapsed_before_attempt := fun _ => 901, health_at := fun _ => none,
    offboard_ok := true, uninstall_ok := true, collected_logs := [],
    elapsed_at_return := 901, now_iso := "2026-01-01T00:00:00" }

/-- Witness for C1: a run whose setup overruns the budget. -/
theorem c1_timeout_aborts_witness :
    (run_test cfgSample true envTimeoutSetup).1.install_passed = false
    ∧ (run_test cfgSample true envTimeoutSetup).1.failure_reason
        = some ("Timeout" ++ ": VM setup took longer than 15 minutes")
    ∧ (run_test cfgSample true envTimeoutSetup).2.offboard_attempts = 0
    ∧ (run_test cfgSample true envTimeoutSetup).2.uninstall_attempts = 0 :=
  (c1_timeout_aborts cfgSample true envTimeoutSetup rfl rfl).1
    ((check_timeout_eq_true 901).mpr (by norm_num))

/-- C2: on every return path of `run_test` the produced result has a
nonnegative duration (the clock being monotone), and its
`failure_reason` is set exactly when not all of `install_passed`,
`onboarding_passed` and `uninstall_passed` hold. -/
theorem c2_testresult_invariant (test_config : TestConfig) (preserve : Bool)
    (env : RunEnv) (hdur : 0 ≤ env.elapsed_at_return) :
    0 ≤ (run_test test_config preserve env).1.duration_seconds
    ∧ ((run_test test_config preserve env).1.failure_reason ≠ none ↔
        ¬((run_test test_config preserve env).1.install_passed = true
          ∧ (run_test test_config preserve env).1.onboarding_passed = true
          ∧ (run_test test_config preserve env).1.uninstall_passed = true)) := by
  cases hexn : env.exn with
  | some msg => constructor <;> simp [run_test, hexn, hdur]
  | none =>
    cases hsetup : env.setup_ok with
    | false => constructor <;> simp [run_test, hexn, hsetup, hdur]
    | true =>
      cases hst : check_timeout env.elapsed_after_setup with
      | true => constructor <;> simp [run_test, hexn, hsetup, hst, hdur]
      | false =>
        rcases hloop : healthLoop env 3 1 0 0 none with ⟨p, r⟩ | ⟨health, p, r⟩
        · constructor <;> simp [run_test, hexn, hsetup, hst, hloop, hdur]
        · rcases health with _ | s
          · constructor <;> simp [run_test, hexn, hsetup, hst, hloop, hdur]
          · cases ho : s.onboarded <;> cases hob : env.offboard_ok <;>
              cases hu : env.uninstall_ok <;> constructor <;>
                simp [run_test, hexn, hsetup, hst, hloop, hdur, ho, hob, hu]

/-- An environment whose VM fails to start. -/
def envSetupFails : RunEnv :=
  { exn := none, setup_ok := false, elapsed_after_setup := 0,
    elapsed_before_attempt := fun _ => 0, health_at := fun _ => none,
    offboard_ok := false, uninstall_ok := false, collected_logs := [],
    elapsed_at_return := 12, now_iso := "2026-01-01T00:00:00" }

/-- Witness for C2 on the setup-failure return path. -/
theorem c2_testresult_invariant_witness :
    0 ≤ (run_test cfgSample true envSetupFails).1.duration_seconds
    ∧ ((run_test cfgSample true envSetupFails).1.failure_reason ≠ none ↔
        ¬((run_test cfgSample true envSetupFails).1.install_passed = true
          ∧ (run_test cfgSample true envSetupFails).1.onboarding_passed = true
          ∧ (run_test cfgSample true envSetupFails).1.uninstall_passed = true)) :=
  c2_testresult_invariant cfgSample true envSetupFails (by norm_num [envSetupFails])

/-- C4: two unhealthy probes (daemon up, not onboarded) followed by an
all-true probe yield `install_passed = true` and
`onboarding_passed = true`, with exactly three health probes and
exactly two service restarts. -/
theorem c4_two_restarts_then_healthy (test_config : TestConfig) (preserve : Bool)
    (env : RunEnv) (s1 s2 s3 : HealthStatus)
    (hexn : env.exn = none) (hsetup : env.setup_ok = true)
    (hst : check_timeout env.elapsed_after_setup = false)
    (ht : ∀ k, 1 ≤ k → k ≤ 3 → check_timeout (env.elapsed_before_attempt k) = false)
    (h1 : env.health_at 1 = some s1) (h1d : s1.daemon_running = true)
    (h1o : s1.onboarded = false)
    (h2 : env.health_at 2 = some s2) (h2d : s2.daemon_running = true)
    (h2o : s2.onboarded = false)
    (h3 : env.health_at 3 = some s3) (h3d : s3.daemon_running = true)
    (h3o : s3.onboarded = true) (h3u : s3.definitions_updated = true) :
    (run_test test_config preserve env).1.install_passed = true
    ∧ (run_test test_config preserve env).1.onboarding_passed = true
    ∧ (run_test test_config preserve env).2.probes = 3
    ∧ (run_test test_config preserve env).2.restarts = 2 := by
  have e1 := ht 1 (by omega) (by omega)
  have e2 := ht 2 (by omega) (by omega)
  have e3 := ht 3 (by omega) (by omega)
  have u1 : healthyOpt (env.health_at 1) = false := by
    simp [h1, healthyOpt, HealthStatus.is_healthy, h1o]
  have u2 : healthyOpt (env.health_at 2) = false := by
    simp [h2, healthyOpt, HealthStatus.is_healthy, h2o]
  have u3 : healthyOpt (env.health_at 3) = true := by
    simp [h3, healthyOpt, HealthStatus.is_healthy, h3d, h3o, h3u]
  have hl : healthLoop env 3 1 0 0 none = .done (env.health_at 3) 3 2 := by
    simp [healthLoop, e1, e2, e3, u1, u2, u3]
  refine ⟨?_, ?_, ?_, ?_⟩ <;> simp [run_test, hexn, hsetup, hst, hl, h3, h3o]

/-- A fully healthy status. -/
def healthyStatus : HealthStatus :=
  { daemon_running := true, real_time_protection := true, onboarded := true,
    definitions_updated := true }

/-- An environment whose first two probes see `unhealthyStatus` (daemon
up, not onboarded) and whose third sees `healthyStatus`. -/
def envC4 : RunEnv :=
  { exn := none, setup_ok := true, elapsed_after_setup := 10,
    elapsed_before_attempt := fun _ => 10,
    health_at := fun k => if k = 3 then some healthyStatus else some unhealthyStatus,
    offboard_ok := true, uninstall_ok := true, collected_logs := [],
    elapsed_at_return := 100, now_iso := "2026-01-01T00:00:00" }

/-- Witness for C4 on the concrete three-probe environment. -/
theorem c4_two_restarts_then_healthy_witness :
    (run_test cfgSample true envC4).1.install_passed = true
    ∧ (run_test cfgSample true envC4).1.onboarding_passed = true
    ∧ (run_test cfgSample true envC4).2.probes = 3
    ∧ (run_test cfgSample true envC4).2.restarts = 2 :=
  c4_two_restarts_then_healthy cfgSample true envC4
    unhealthyStatus unhealthyStatus healthyStatus rfl rfl
    ((check_timeout_eq_false 10).mpr (by norm_num))
    (fun _ _ _ => (check_timeout_eq_false 10).mpr (by norm_num))
    rfl rfl rfl rfl rfl rfl rfl rfl rfl rfl

lemma healthLoop_no_timeout (env : RunEnv) :
    ∀ remaining attempt probes restarts h,
      (∀ k, attempt ≤ k → k < attempt + remaining →
          check_timeout (env.elapsed_before_attempt k) = false) →
      ∃ health p r,
        healthLoop env remaining attempt probes restarts h = .done health p r := by
  intro remaining
  induction remaining with
  | zero => intro attempt probes restarts h _; exact ⟨h, probes, restarts, rfl⟩
  | succ n ih =>
    intro attempt probes restarts h hc
    have h0 : check_timeout (env.elapsed_before_attempt attempt) = false :=
      hc attempt le_rfl (by omega)
    cases hh : healthyOpt (env.health_at attempt) with
    | true =>
      exact ⟨env.health_at attempt, probes + 1, restarts, by simp [healthLoop, h0, hh]⟩
    | false =>
      by_cases hn : n = 0
      · subst hn
        exact ⟨env.health_at attempt, probes + 1, restarts, by simp [healthLoop, h0, hh]⟩
      · obtain ⟨he, p, r, hr⟩ := ih (attempt + 1) (probes + 1) (restarts + 1)
          (env.health_at attempt) (fun k hk1 hk2 => hc k (by omega) (by omega))
        refine ⟨he, p, r, ?_⟩
        rw [show (healthLoop env (n + 1) attempt probes restarts h
            = healthLoop env n (attempt + 1) (probes + 1) (restarts + 1)
                (env.health_at attempt)) from by simp [healthLoop, h0, hh, hn]]
        exact hr

/-- C9: in an exception-free run whose setup succeeds and whose budget
is never found exceeded, the health loop finishes with some final
`health`; `install_passed` is true exactly when that final probe parsed
(`health.isSome`, healthy or not), offboarding is attempted exactly
when `install_passed` holds, and uninstall is attempted exactly when
offboarding was attempted and succeeded. -/
theorem c9_offboard_uninstall_policy (test_config : TestConfig) (preserve : Bool)
    (env : RunEnv) (hexn : env.exn = none) (hsetup : env.setup_ok = true)
    (hst : check_timeout env.elapsed_after_setup = false)
    (ht : ∀ k, 1 ≤ k → k ≤ 3 → check_timeout (env.elapsed_before_attempt k) = false) :
    ∃ health probes restarts,
      healthLoop env 3 1 0 0 none = .done health probes restarts
      ∧ (run_test test_config preserve env).1.install_passed = health.isSome
      ∧ (run_test test_config preserve env).2.offboard_attempts
          = (if health.isSome then 1 else 0)
      ∧ (run_test test_config preserve env).2.uninstall_attempts
          = (if health.isSome && env.offboard_ok then 1 else 0) := by
  obtain ⟨health, p, r, hl⟩ := healthLoop_no_timeout env 3 1 0 0 none
    (fun k hk1 hk2 => ht k hk1 (by omega))
  refine ⟨health, p, r, hl, ?_, ?_, ?_⟩ <;>
    simp [run_test, hexn, hsetup, hst, hl]

/-- An environment where every probe fails to parse (`none`). -/
def envC9 : RunEnv :=
  { exn := none, setup_ok := true, elapsed_after_setup := 5,
    elapsed_before_attempt := fun _ => 5, health_at := fun _ => none,
    offboard_ok := true, uninstall_ok := true,
    collected_logs := [("installer.log", "installer output")],
    elapsed_at_return := 50, now_iso := "2026-01-01T00:00:00" }

/-- Witness for C9 on a run whose probes never parse. -/
theorem c9_offboard_uninstall_policy_witness :
    ∃ health probes restarts,
      healthLoop envC9 3 1 0 0 none = .done health probes restarts
      ∧ (run_test cfgSample true envC9).1.install_passed = health.isSome
      ∧ (run_test cfgSample true envC9).2.offboard_attempts
          = (if health.isSome then 1 else 0)
      ∧ (run_test cfgSample true envC9).2.uninstall_attempts
          = (if health.isSome && envC9.offboard_ok then 1 else 0) :=
  c9_offboard_uninstall_policy cfgSample true envC9 rfl rfl
    ((check_timeout_eq_false 5).mpr (by norm_num))
    (fun _ _ _ => (check_timeout_eq_false 5).mpr (by norm_num))

end E2E
